import Mathlib

/-!
Shallow embedding of `tagias-node` (`src/index.js`), a thin JavaScript client
for the TAGIAS image-annotation REST API, together with proofs of the
specification's claims about it.

Modelling conventions:

* JavaScript values that flow through the client are modelled by `JsValue`
  (`undefined` is JavaScript's `undefined`, `date v` is the object produced by
  `new Date(v)`).
* Property access `v.f` is `JsValue.getF` — it returns `none` when JavaScript
  would throw a `TypeError` (base is `undefined` or `null`), and
  `some JsValue.undefined` when the property is merely missing.
* The HTTP transport (axios) is a parameter `tr : Transport` mapping a request
  to either a thrown `JsError` or an `AxiosResponse`.  Each client method
  returns the list of requests it issued together with its outcome, so that
  "exactly one request was made" is a provable statement.
* Thrown exceptions are `Thrown`: a transport-level `JsError` rethrown
  unmodified, a typed `TagiasError`, or a runtime `TypeError` (property access
  or `.map` on a value of the wrong shape).
-/

/-- JavaScript values manipulated by the client.  `date v` stands for the
`Date` object produced by `new Date(v)`. -/
inductive JsValue where
  | undefined
  | null
  | bool (b : Bool)
  | num (n : Int)
  | str (s : String)
  | date (arg : JsValue)
  | arr (elems : List JsValue)
  | obj (fields : List (String × JsValue))
  deriving Repr

namespace JsValue

/-- First-match lookup in an object's field list; `undefined` when the key is
missing (JavaScript property access on an object). -/
def lookupF : List (String × JsValue) → String → JsValue
  | [], _ => .undefined
  | (k', v) :: rest, k => if k' = k then v else lookupF rest k

/-- Property read `v.f`.  JavaScript throws a `TypeError` when the base is
`undefined` or `null` (signalled by `none`); on any other non-object base the
result is `undefined`. -/
def getF : JsValue → String → Option JsValue
  | .undefined, _ => none
  | .null, _ => none
  | .obj fields, f => some (lookupF fields f)
  | _, _ => some .undefined

/-- Replace the first binding of `k` (JavaScript updates the existing
property), or append the binding when `k` is absent. -/
def setFields : List (String × JsValue) → String → JsValue → List (String × JsValue)
  | [], k, v => [(k, v)]
  | (k', v') :: rest, k, v =>
      if k' = k then (k, v) :: rest else (k', v') :: setFields rest k v

/-- Property write `v.f = x`.  The source runs in strict mode, so assignment to
a property of a primitive throws a `TypeError` (`none`).  (A JavaScript array
could carry named properties, which `arr` does not model; no code path of the
client writes a named property to an array.) -/
def setF : JsValue → String → JsValue → Option JsValue
  | .obj fields, f, v => some (.obj (setFields fields f v))
  | _, _, _ => none

/-- Remove every binding of `k` from a field list (JavaScript `delete`; field
lists parsed from JSON have unique keys, duplicates having collapsed). -/
def deleteFields : List (String × JsValue) → String → List (String × JsValue)
  | [], _ => []
  | (k', v) :: rest, k =>
      if k' = k then deleteFields rest k else (k', v) :: deleteFields rest k

/-- Property delete `delete v.f` on the object results the client applies it
to.  The client only deletes from the envelope object, which is always a plain
object when reached (see `apiCall`); on non-objects deletion is a no-op here. -/
def deleteF : JsValue → String → JsValue
  | .obj fields, f => .obj (deleteFields fields f)
  | v, _ => v

/-- JavaScript truthiness of a value (`if (v)`).  `Date` objects, arrays and
objects are always truthy. -/
def truthy : JsValue → Bool
  | .undefined => false
  | .null => false
  | .bool b => b
  | .num n => n ≠ 0
  | .str s => s ≠ ""
  | .date _ => true
  | .arr _ => true
  | .obj _ => true

end JsValue

/-- The twelve TAGIAS error codes (`TagiasErrors` in the source). -/
def TagiasErrors : List String :=
  ["NONAME", "NOPICTURES", "BADPICTURES", "NOLABELS", "BADCALLBACK",
   "BADBASEURL", "BADTYPE", "BADSTATUS", "NOTFOUND", "INTERNAL",
   "NOAPIKEY", "UNAUTHORIZED"]

/-- URL for the TAGIAS external API endpoint (`TAGIAS_URL`). -/
def TAGIAS_URL : String := "https://p.tagias.com/api/v2/tagias"

/-- The string-level message table of `translateErrorCode`: what the
JavaScript `switch` yields when `code` is a string. -/
def translateErrorMessage (code : String) : String :=
  match code with
  | "NONAME" => "The package name is missing"
  | "NOPICTURES" => "The pictures array is empty or missing"
  | "BADPICTURES" => "Some of the provided pictures could not be accessed or their URLs are malformed"
  | "NOLABELS" => "The labels array for the classification task is missing (or there are less than 2 items in the array)"
  | "BADCALLBACK" => "The callback URL is malformed"
  | "BADBASEURL" => "The baseurl URL is malformed"
  | "BADTYPE" => "The type value is not one of the allowed values"
  | "BADSTATUS" => "The status value is not one of the allowed values or this kind of change is not allowed"
  | "NOTFOUND" => "The specified object does not exist"
  | "INTERNAL" => "An internal error has occurred"
  | "NOAPIKEY" => "TAGIAS API Key is not provided"
  | "UNAUTHORIZED" => "TAGIAS API Key is incorrect"
  | _ => "Unknown error code"

/-- Translates the provided TAGIAS error code to a string message
(`translateErrorCode`).  The JavaScript `switch` compares with `===`, so only
exact string values can match a case; any non-string (including `undefined`
when the envelope has no `error` field) falls to the default. -/
def translateErrorCode (code : JsValue) : String :=
  match code with
  | .str s => translateErrorMessage s
  | _ => "Unknown error code"

/-- The `TagiasError` class: `code` is whatever value was passed to the
constructor, `message` comes from `translateErrorCode`, `name` is fixed. -/
structure TagiasError where
  code : JsValue
  message : String
  name : String
  deriving Repr

/-- The `TagiasError` constructor: `super(translateErrorCode(code));
this.code = code; this.name = 'TagiasError';`. -/
def TagiasError.ofCode (code : JsValue) : TagiasError :=
  { code := code, message := translateErrorCode code, name := "TagiasError" }

/-- An axios response as seen by the client: HTTP status and parsed body. -/
structure AxiosResponse where
  status : Nat
  data : JsValue
  deriving Repr

/-- A JavaScript error thrown by the transport.  `isAxiosError` models the
strict `e.isAxiosError === true` test, `response` is `undefined` (`none`) when
no response was received, and `message` identifies the original error. -/
structure JsError where
  isAxiosError : Bool
  response : Option AxiosResponse
  message : String
  deriving Repr

/-- An exception propagating out of a client method. -/
inductive Thrown where
  | transport (e : JsError)
  | tagias (e : TagiasError)
  | typeError
  deriving Repr

/-- A single HTTP request issued through the axios instance. -/
structure Request where
  method : String
  url : String
  body : JsValue
  headers : List (String × String)
  deriving Repr

/-- The HTTP transport: what awaiting the axios call yields for a request. -/
abbrev Transport : Type := Request → Except JsError AxiosResponse

/-- The test `e.isAxiosError === true && e.response && e.response.status === 401`
in `apiCall`'s catch block. -/
def is401 (e : JsError) : Bool :=
  e.isAxiosError && (match e.response with
    | some r => r.status == 401
    | none => false)

/-- The strict comparison `result.data.status !== 'ok'` is false exactly when
the status field holds the literal string "ok". -/
def isOkStatus (v : JsValue) : Bool :=
  match v with
  | .str s => s == "ok"
  | _ => false

/-- Executes the supplied function and handles known exceptions (`apiCall`).
A 401 axios error becomes the typed UNAUTHORIZED error; any other thrown
error is rethrown unmodified; a non-"ok" envelope status raises a
`TagiasError` built from the envelope's `error` field; otherwise the parsed
body is returned.  Reading `.status` on an `undefined`/`null` body throws a
`TypeError`, as in JavaScript. -/
def apiCall (func : Except JsError AxiosResponse) : Except Thrown JsValue :=
  match func with
  | .error e =>
      if is401 e then .error (.tagias (TagiasError.ofCode (.str "UNAUTHORIZED")))
      else .error (.transport e)
  | .ok result =>
      match result.data.getF "status" with
      | none => .error .typeError
      | some st =>
          if isOkStatus st then .ok result.data
          else
            match result.data.getF "error" with
            | none => .error .typeError
            | some code => .error (.tagias (TagiasError.ofCode code))

/-- The headers configured once on the axios instance at construction. -/
def mkHeaders (apiKey : String) : List (String × String) :=
  [("Content-Type", "application/json"), ("Authorization", "Api-Key " ++ apiKey)]

/-- The TAGIAS helper class: the stored API key and the axios instance's
configured headers. -/
structure Tagias where
  apiKey : String
  instanceHeaders : List (String × String)
  deriving Repr

/-- The `Tagias` constructor.  `apiKey` is `none` when the argument is absent
(`undefined`); `!apiKey` is also true for the empty string.  The first
component is the list of HTTP requests issued during construction — none:
`axios.create` only stores the configuration. -/
def Tagias.construct (apiKey : Option String) :
    List Request × Except TagiasError Tagias :=
  match apiKey with
  | none => ([], .error (TagiasError.ofCode (.str "NOAPIKEY")))
  | some k =>
      if k = "" then ([], .error (TagiasError.ofCode (.str "NOAPIKEY")))
      else ([], .ok { apiKey := k, instanceHeaders := mkHeaders k })

/-- One conditional date conversion, `if (v.f) v.f = new Date(v.f)`:
read the property (a `TypeError` is `none`), and when it is truthy overwrite
it with the `Date` object. -/
def convDate (v : JsValue) (f : String) : Option JsValue :=
  match v.getF f with
  | none => none
  | some fv => if fv.truthy then v.setF f (.date fv) else some v

/-- Sequential conditional date conversions, one per listed field — the six
`if (result.package.X) result.package.X = new Date(...)` lines of
`getPackage` run in order. -/
def convDates (fields : List String) (v : JsValue) : Option JsValue :=
  match fields with
  | [] => some v
  | f :: rest =>
      match convDate v f with
      | none => none
      | some v' => convDates rest v'

/-- The per-item conversion performed by
`result.packages.map((item, index) => { if (item.created) ... })` and its
`operations` analogue: each element of the array gets one conditional date
conversion in place. -/
def convItems (items : List JsValue) (f : String) : Option (List JsValue) :=
  match items with
  | [] => some []
  | x :: rest =>
      match convDate x f, convItems rest f with
      | some y, some ys => some (y :: ys)
      | _, _ => none

/-- Returns the array of created packages (`getPackages`).  Calling `.map` on
a non-array (including `undefined` when the envelope lacks `packages`) throws
a `TypeError`. -/
def Tagias.getPackages (t : Tagias) (tr : Transport) :
    List Request × Except Thrown JsValue :=
  let req : Request :=
    ⟨"GET", TAGIAS_URL ++ "/packages", .undefined, t.instanceHeaders⟩
  ([req],
    match apiCall (tr req) with
    | .error th => .error th
    | .ok body =>
        match body.getF "packages" with
        | none => .error .typeError
        | some (.arr items) =>
            match convItems items "created" with
            | none => .error .typeError
            | some items' => .ok (.arr items')
        | some _ => .error .typeError)

/-- Creates a new TAGIAS package (`createPackage`).  The request body is the
object literal `{name, type, descr, labels, callback, baseurl, pictures,
labels_required}`; the resolved value is `{id: result.id,
pictures_num: result.pictures_num}` and nothing else. -/
def Tagias.createPackage (t : Tagias) (tr : Transport)
    (name type descr labels callback baseurl pictures labels_required : JsValue) :
    List Request × Except Thrown JsValue :=
  let data : JsValue :=
    .obj [("name", name), ("type", type), ("descr", descr), ("labels", labels),
          ("callback", callback), ("baseurl", baseurl), ("pictures", pictures),
          ("labels_required", labels_required)]
  let req : Request := ⟨"POST", TAGIAS_URL ++ "/packages", data, t.instanceHeaders⟩
  ([req],
    match apiCall (tr req) with
    | .error th => .error th
    | .ok body =>
        match body.getF "id", body.getF "pictures_num" with
        | some i, some pn => .ok (.obj [("id", i), ("pictures_num", pn)])
        | _, _ => .error .typeError)

/-- Calling `createPackage` with the last argument omitted: the JavaScript
parameter default `labels_required = null` applies. -/
def Tagias.createPackageDefault (t : Tagias) (tr : Transport)
    (name type descr labels callback baseurl pictures : JsValue) :
    List Request × Except Thrown JsValue :=
  Tagias.createPackage t tr name type descr labels callback baseurl pictures .null

/-- Modifies the TAGIAS package's status (`setPackageStatus`).  The resolved
value of the JavaScript `async` function is `undefined`. -/
def Tagias.setPackageStatus (t : Tagias) (tr : Transport) (id status : String) :
    List Request × Except Thrown JsValue :=
  let data : JsValue := .obj [("status", .str status)]
  let req : Request :=
    ⟨"PATCH", TAGIAS_URL ++ "/packages/" ++ id, data, t.instanceHeaders⟩
  ([req],
    match apiCall (tr req) with
    | .error th => .error th
    | .ok _ => .ok .undefined)

/-- The six timestamp fields of a full package, in the order `getPackage`
converts them. -/
def dateFields : List String :=
  ["created", "started", "stopped", "finished", "updated", "delivered"]

/-- Reads the TAGIAS package's properties (`getPackage`): the envelope's
`package` object with its six timestamp fields conditionally converted. -/
def Tagias.getPackage (t : Tagias) (tr : Transport) (id : String) :
    List Request × Except Thrown JsValue :=
  let req : Request :=
    ⟨"GET", TAGIAS_URL ++ "/packages/" ++ id, .undefined, t.instanceHeaders⟩
  ([req],
    match apiCall (tr req) with
    | .error th => .error th
    | .ok body =>
        match body.getF "package" with
        | none => .error .typeError
        | some pkg =>
            match convDates dateFields pkg with
            | none => .error .typeError
            | some pkg' => .ok pkg')

/-- Requests delivery of the available annotations (`requestResult`).  The
resolved value of the JavaScript `async` function is `undefined`. -/
def Tagias.requestResult (t : Tagias) (tr : Transport) (id : String) :
    List Request × Except Thrown JsValue :=
  let req : Request :=
    ⟨"POST", TAGIAS_URL ++ "/packages/result/" ++ id, .undefined, t.instanceHeaders⟩
  ([req],
    match apiCall (tr req) with
    | .error th => .error th
    | .ok _ => .ok .undefined)

/-- Reads the currently available annotations (`getResult`): the whole
envelope with `finished` conditionally converted and `status` deleted. -/
def Tagias.getResult (t : Tagias) (tr : Transport) (id : String) :
    List Request × Except Thrown JsValue :=
  let req : Request :=
    ⟨"GET", TAGIAS_URL ++ "/packages/result/" ++ id, .undefined, t.instanceHeaders⟩
  ([req],
    match apiCall (tr req) with
    | .error th => .error th
    | .ok body =>
        match convDate body "finished" with
        | none => .error .typeError
        | some body' => .ok (body'.deleteF "status"))

/-- Reads the current balance and operations (`getBalance`): the whole
envelope with each operation's `date` conditionally converted and the
top-level `status` deleted. -/
def Tagias.getBalance (t : Tagias) (tr : Transport) :
    List Request × Except Thrown JsValue :=
  let req : Request := ⟨"GET", TAGIAS_URL ++ "/balance", .undefined, t.instanceHeaders⟩
  ([req],
    match apiCall (tr req) with
    | .error th => .error th
    | .ok body =>
        match body.getF "operations" with
        | none => .error .typeError
        | some (.arr items) =>
            match convItems items "date" with
            | none => .error .typeError
            | some items' =>
                match body.setF "operations" (.arr items') with
                | none => .error .typeError
                | some body' => .ok (body'.deleteF "status")
        | some _ => .error .typeError)

/-! ## Helper lemmas about `apiCall` and the object primitives -/

theorem apiCall_thrown_401 (e : JsError) (h : is401 e = true) :
    apiCall (.error e) = .error (.tagias (TagiasError.ofCode (.str "UNAUTHORIZED"))) := by
  simp [apiCall, h]

theorem apiCall_thrown_other (e : JsError) (h : is401 e = false) :
    apiCall (.error e) = .error (.transport e) := by
  simp [apiCall, h]

theorem apiCall_envelope_error (r : AxiosResponse) (st c : JsValue)
    (hst : r.data.getF "status" = some st) (hok : isOkStatus st = false)
    (hc : r.data.getF "error" = some c) :
    apiCall (.ok r) = .error (.tagias (TagiasError.ofCode c)) := by
  simp [apiCall, hst, hok, hc]

theorem apiCall_envelope_ok (r : AxiosResponse) (st : JsValue)
    (hst : r.data.getF "status" = some st) (hok : isOkStatus st = true) :
    apiCall (.ok r) = .ok r.data := by
  simp [apiCall, hst, hok]

theorem lookupF_setFields_self (fs : List (String × JsValue)) (k : String) (v : JsValue) :
    JsValue.lookupF (JsValue.setFields fs k v) k = v := by
  induction fs with
  | nil => simp [JsValue.setFields, JsValue.lookupF]
  | cons p rest ih =>
      by_cases hk : p.1 = k
      · simp [JsValue.setFields, JsValue.lookupF, hk]
      · simp [JsValue.setFields, JsValue.lookupF, hk, ih]

theorem lookupF_setFields_ne (fs : List (String × JsValue)) (k k' : String) (v : JsValue)
    (h : k' ≠ k) :
    JsValue.lookupF (JsValue.setFields fs k v) k' = JsValue.lookupF fs k' := by
  induction fs with
  | nil => simp [JsValue.setFields, JsValue.lookupF, Ne.symm h]
  | cons p rest ih =>
      by_cases hk : p.1 = k
      · simp [JsValue.setFields, JsValue.lookupF, hk, Ne.symm h]
      · simp [JsValue.setFields, JsValue.lookupF, hk, ih]

theorem lookupF_deleteFields_self (fs : List (String × JsValue)) (k : String) :
    JsValue.lookupF (JsValue.deleteFields fs k) k = .undefined := by
  induction fs with
  | nil => simp [JsValue.deleteFields, JsValue.lookupF]
  | cons p rest ih =>
      by_cases hk : p.1 = k
      · simp [JsValue.deleteFields, hk, ih]
      · simp [JsValue.deleteFields, JsValue.lookupF, hk, ih]

theorem lookupF_deleteFields_ne (fs : List (String × JsValue)) (k k' : String)
    (h : k' ≠ k) :
    JsValue.lookupF (JsValue.deleteFields fs k) k' = JsValue.lookupF fs k' := by
  induction fs with
  | nil => rfl
  | cons p rest ih =>
      by_cases hk : p.1 = k
      · have hpk : ¬ (p.1 = k') := by rw [hk]; exact Ne.symm h
        simp [JsValue.deleteFields, JsValue.lookupF, hk, hpk, ih, Ne.symm h]
      · simp [JsValue.deleteFields, JsValue.lookupF, hk, ih]

theorem convDate_obj (fs : List (String × JsValue)) (f : String) :
    convDate (.obj fs) f =
      some (.obj (if (JsValue.lookupF fs f).truthy
                  then JsValue.setFields fs f (.date (JsValue.lookupF fs f))
                  else fs)) := by
  by_cases ht : (JsValue.lookupF fs f).truthy
  · simp [convDate, JsValue.getF, JsValue.setF, ht]
  · simp [convDate, JsValue.getF, JsValue.setF, ht]

/-! ## Claim C3 -/

/-- C3: Constructing the Tagias client without a credential (apiKey absent)
always raises a TagiasError with code NOAPIKEY, and no network request is
issued before that failure (the request trace of construction is empty). -/
theorem c3_missing_apiKey_fails_fast :
    Tagias.construct none = ([], .error (TagiasError.ofCode (.str "NOAPIKEY"))) ∧
    (TagiasError.ofCode (.str "NOAPIKEY")).code = .str "NOAPIKEY" ∧
    (TagiasError.ofCode (.str "NOAPIKEY")).message = "TAGIAS API Key is not provided" ∧
    (Tagias.construct none).1 = [] :=
  ⟨rfl, rfl, rfl, rfl⟩

/-! ## Claim C9 -/

/-- C9: For each of the twelve enumerated error codes, a TagiasError
constructed from that code carries that exact code and the fixed message from
the translation table.  The translation is the Lean function
`translateErrorCode`, deterministic and total by construction. -/
theorem c9_error_code_translation_table :
    ((TagiasError.ofCode (.str "NONAME")).code = .str "NONAME" ∧
      (TagiasError.ofCode (.str "NONAME")).message = "The package name is missing") ∧
    ((TagiasError.ofCode (.str "NOPICTURES")).code = .str "NOPICTURES" ∧
      (TagiasError.ofCode (.str "NOPICTURES")).message = "The pictures array is empty or missing") ∧
    ((TagiasError.ofCode (.str "BADPICTURES")).code = .str "BADPICTURES" ∧
      (TagiasError.ofCode (.str "BADPICTURES")).message = "Some of the provided pictures could not be accessed or their URLs are malformed") ∧
    ((TagiasError.ofCode (.str "NOLABELS")).code = .str "NOLABELS" ∧
      (TagiasError.ofCode (.str "NOLABELS")).message = "The labels array for the classification task is missing (or there are less than 2 items in the array)") ∧
    ((TagiasError.ofCode (.str "BADCALLBACK")).code = .str "BADCALLBACK" ∧
      (TagiasError.ofCode (.str "BADCALLBACK")).message = "The callback URL is malformed") ∧
    ((TagiasError.ofCode (.str "BADBASEURL")).code = .str "BADBASEURL" ∧
      (TagiasError.ofCode (.str "BADBASEURL")).message = "The baseurl URL is malformed") ∧
    ((TagiasError.ofCode (.str "BADTYPE")).code = .str "BADTYPE" ∧
      (TagiasError.ofCode (.str "BADTYPE")).message = "The type value is not one of the allowed values") ∧
    ((TagiasError.ofCode (.str "BADSTATUS")).code = .str "BADSTATUS" ∧
      (TagiasError.ofCode (.str "BADSTATUS")).message = "The status value is not one of the allowed values or this kind of change is not allowed") ∧
    ((TagiasError.ofCode (.str "NOTFOUND")).code = .str "NOTFOUND" ∧
      (TagiasError.ofCode (.str "NOTFOUND")).message = "The specified object does not exist") ∧
    ((TagiasError.ofCode (.str "INTERNAL")).code = .str "INTERNAL" ∧
      (TagiasError.ofCode (.str "INTERNAL")).message = "An internal error has occurred") ∧
    ((TagiasError.ofCode (.str "NOAPIKEY")).code = .str "NOAPIKEY" ∧
      (TagiasError.ofCode (.str "NOAPIKEY")).message = "TAGIAS API Key is not provided") ∧
    ((TagiasError.ofCode (.str "UNAUTHORIZED")).code = .str "UNAUTHORIZED" ∧
      (TagiasError.ofCode (.str "UNAUTHORIZED")).message = "TAGIAS API Key is incorrect") :=
  ⟨⟨rfl, rfl⟩, ⟨rfl, rfl⟩, ⟨rfl, rfl⟩, ⟨rfl, rfl⟩, ⟨rfl, rfl⟩, ⟨rfl, rfl⟩,
   ⟨rfl, rfl⟩, ⟨rfl, rfl⟩, ⟨rfl, rfl⟩, ⟨rfl, rfl⟩, ⟨rfl, rfl⟩, ⟨rfl, rfl⟩⟩

/-! ## Claim C2 -/

/-- C2: For every client operation, if the transport reports an HTTP 401
response, the operation raises a TagiasError with code UNAUTHORIZED,
regardless of the contents of the response body (the error `e`, hence the
body inside `e.response`, is arbitrary subject only to `is401`). -/
theorem c2_http401_unauthorized (t : Tagias) (e : JsError) (tr : Transport)
    (h401 : is401 e = true) (htr : ∀ r, tr r = .error e)
    (id status : String) (nm ty ds ls cb bu pics lr : JsValue) :
    (t.getPackages tr).2 = .error (.tagias (TagiasError.ofCode (.str "UNAUTHORIZED"))) ∧
    (t.createPackage tr nm ty ds ls cb bu pics lr).2 =
      .error (.tagias (TagiasError.ofCode (.str "UNAUTHORIZED"))) ∧
    (t.setPackageStatus tr id status).2 =
      .error (.tagias (TagiasError.ofCode (.str "UNAUTHORIZED"))) ∧
    (t.getPackage tr id).2 = .error (.tagias (TagiasError.ofCode (.str "UNAUTHORIZED"))) ∧
    (t.requestResult tr id).2 = .error (.tagias (TagiasError.ofCode (.str "UNAUTHORIZED"))) ∧
    (t.getResult tr id).2 = .error (.tagias (TagiasError.ofCode (.str "UNAUTHORIZED"))) ∧
    (t.getBalance tr).2 = .error (.tagias (TagiasError.ofCode (.str "UNAUTHORIZED"))) ∧
    (TagiasError.ofCode (.str "UNAUTHORIZED")).code = .str "UNAUTHORIZED" := by
  refine ⟨?_, ?_, ?_, ?_, ?_, ?_, ?_, rfl⟩ <;>
    simp [Tagias.getPackages, Tagias.createPackage, Tagias.setPackageStatus,
          Tagias.getPackage, Tagias.requestResult, Tagias.getResult,
          Tagias.getBalance, htr, apiCall_thrown_401 e h401]

/-- Witness for C2: a concrete 401 axios error with a non-empty body makes a
concrete `getBalance` call raise UNAUTHORIZED. -/
theorem c2_http401_unauthorized_witness :
    ((Tagias.mk "key" (mkHeaders "key")).getBalance
        (fun _ => .error ⟨true, some ⟨401, .str "irrelevant body"⟩, "Request failed"⟩)).2 =
      .error (.tagias (TagiasError.ofCode (.str "UNAUTHORIZED"))) :=
  (c2_http401_unauthorized ⟨"key", mkHeaders "key"⟩
      ⟨true, some ⟨401, .str "irrelevant body"⟩, "Request failed"⟩
      (fun _ => .error ⟨true, some ⟨401, .str "irrelevant body"⟩, "Request failed"⟩)
      rfl (fun _ => rfl) "id" "ACTIVE"
      .null .null .null .null .null .null .null .null).2.2.2.2.2.2.1

/-! ## Claim C7 -/

/-- C7: For every client operation, a transport-level error other than an
HTTP 401 response propagates to the caller unmodified as the original
transport error `e`; it is never wrapped into a TagiasError. -/
theorem c7_transport_error_propagates (t : Tagias) (e : JsError) (tr : Transport)
    (hnot : is401 e = false) (htr : ∀ r, tr r = .error e)
    (id status : String) (nm ty ds ls cb bu pics lr : JsValue) :
    (t.getPackages tr).2 = .error (.transport e) ∧
    (t.createPackage tr nm ty ds ls cb bu pics lr).2 = .error (.transport e) ∧
    (t.setPackageStatus tr id status).2 = .error (.transport e) ∧
    (t.getPackage tr id).2 = .error (.transport e) ∧
    (t.requestResult tr id).2 = .error (.transport e) ∧
    (t.getResult tr id).2 = .error (.transport e) ∧
    (t.getBalance tr).2 = .error (.transport e) := by
  refine ⟨?_, ?_, ?_, ?_, ?_, ?_, ?_⟩ <;>
    simp [Tagias.getPackages, Tagias.createPackage, Tagias.setPackageStatus,
          Tagias.getPackage, Tagias.requestResult, Tagias.getResult,
          Tagias.getBalance, htr, apiCall_thrown_other e hnot]

/-- Witness for C7: a concrete network failure (no response at all) comes out
of a concrete `getPackages` call as the same transport error. -/
theorem c7_transport_error_propagates_witness :
    ((Tagias.mk "key" (mkHeaders "key")).getPackages
        (fun _ => .error ⟨true, none, "ECONNREFUSED"⟩)).2 =
      .error (.transport ⟨true, none, "ECONNREFUSED"⟩) :=
  (c7_transport_error_propagates ⟨"key", mkHeaders "key"⟩
      ⟨true, none, "ECONNREFUSED"⟩
      (fun _ => .error ⟨true, none, "ECONNREFUSED"⟩)
      rfl (fun _ => rfl) "id" "ACTIVE"
      .null .null .null .null .null .null .null .null).1

/-! ## Claim C1 -/

/-- C1: For every client operation, if the HTTP response is delivered and the
parsed body's status field is not the literal string "ok", the operation
raises a TagiasError whose code equals the body's error field, and no payload
is returned (the outcome is `Except.error`, not `Except.ok`). -/
theorem c1_nonOk_envelope_raises_error_code (t : Tagias) (resp : AxiosResponse)
    (st c : JsValue) (tr : Transport)
    (hst : resp.data.getF "status" = some st) (hok : isOkStatus st = false)
    (hc : resp.data.getF "error" = some c) (htr : ∀ r, tr r = .ok resp)
    (id status : String) (nm ty ds ls cb bu pics lr : JsValue) :
    (t.getPackages tr).2 = .error (.tagias (TagiasError.ofCode c)) ∧
    (t.createPackage tr nm ty ds ls cb bu pics lr).2 =
      .error (.tagias (TagiasError.ofCode c)) ∧
    (t.setPackageStatus tr id status).2 = .error (.tagias (TagiasError.ofCode c)) ∧
    (t.getPackage tr id).2 = .error (.tagias (TagiasError.ofCode c)) ∧
    (t.requestResult tr id).2 = .error (.tagias (TagiasError.ofCode c)) ∧
    (t.getResult tr id).2 = .error (.tagias (TagiasError.ofCode c)) ∧
    (t.getBalance tr).2 = .error (.tagias (TagiasError.ofCode c)) ∧
    (TagiasError.ofCode c).code = c := by
  refine ⟨?_, ?_, ?_, ?_, ?_, ?_, ?_, rfl⟩ <;>
    simp [Tagias.getPackages, Tagias.createPackage, Tagias.setPackageStatus,
          Tagias.getPackage, Tagias.requestResult, Tagias.getResult,
          Tagias.getBalance, htr, apiCall_envelope_error resp st c hst hok hc]

/-- Witness for C1: a concrete envelope with status "error" and error code
NOTFOUND makes a concrete `getPackage` call raise the NOTFOUND TagiasError. -/
theorem c1_nonOk_envelope_raises_error_code_witness :
    ((Tagias.mk "key" (mkHeaders "key")).getPackage
        (fun _ => .ok ⟨200, .obj [("status", .str "error"), ("error", .str "NOTFOUND")]⟩)
        "pkg1").2 =
      .error (.tagias (TagiasError.ofCode (.str "NOTFOUND"))) :=
  (c1_nonOk_envelope_raises_error_code ⟨"key", mkHeaders "key"⟩
      ⟨200, .obj [("status", .str "error"), ("error", .str "NOTFOUND")]⟩
      (.str "error") (.str "NOTFOUND")
      (fun _ => .ok ⟨200, .obj [("status", .str "error"), ("error", .str "NOTFOUND")]⟩)
      rfl rfl rfl (fun _ => rfl) "pkg1" "ACTIVE"
      .null .null .null .null .null .null .null .null).2.2.2.1

/-! ## Claim C10 -/

theorem translateErrorMessage_unknown (s : String) (h : s ∉ TagiasErrors) :
    translateErrorMessage s = "Unknown error code" := by
  unfold translateErrorMessage
  split <;> simp_all [TagiasErrors]

theorem translateErrorCode_unknown (c : JsValue)
    (h : ∀ s ∈ TagiasErrors, c ≠ JsValue.str s) :
    translateErrorCode c = "Unknown error code" := by
  cases c with
  | str s =>
      have hs : s ∉ TagiasErrors := fun hmem => h s hmem rfl
      simp [translateErrorCode, translateErrorMessage_unknown s hs]
  | undefined => rfl
  | null => rfl
  | bool b => rfl
  | num n => rfl
  | date a => rfl
  | arr xs => rfl
  | obj fs => rfl

/-- C10: For every envelope whose status is not "ok" and whose error field
holds a value outside the twelve enumerated codes (including `undefined` when
the field is absent), the operation still raises a TagiasError preserving that
value unchanged as its code, with the message 'Unknown error code'. -/
theorem c10_unknown_code_preserved (t : Tagias) (resp : AxiosResponse)
    (st c : JsValue) (tr : Transport)
    (hst : resp.data.getF "status" = some st) (hok : isOkStatus st = false)
    (hc : resp.data.getF "error" = some c) (htr : ∀ r, tr r = .ok resp)
    (hknown : ∀ s ∈ TagiasErrors, c ≠ JsValue.str s)
    (id status : String) (nm ty ds ls cb bu pics lr : JsValue) :
    (t.getPackages tr).2 = .error (.tagias ⟨c, "Unknown error code", "TagiasError"⟩) ∧
    (t.createPackage tr nm ty ds ls cb bu pics lr).2 =
      .error (.tagias ⟨c, "Unknown error code", "TagiasError"⟩) ∧
    (t.setPackageStatus tr id status).2 =
      .error (.tagias ⟨c, "Unknown error code", "TagiasError"⟩) ∧
    (t.getPackage tr id).2 = .error (.tagias ⟨c, "Unknown error code", "TagiasError"⟩) ∧
    (t.requestResult tr id).2 = .error (.tagias ⟨c, "Unknown error code", "TagiasError"⟩) ∧
    (t.getResult tr id).2 = .error (.tagias ⟨c, "Unknown error code", "TagiasError"⟩) ∧
    (t.getBalance tr).2 = .error (.tagias ⟨c, "Unknown error code", "TagiasError"⟩) := by
  have hm : TagiasError.ofCode c = ⟨c, "Unknown error code", "TagiasError"⟩ := by
    simp [TagiasError.ofCode, translateErrorCode_unknown c hknown]
  refine ⟨?_, ?_, ?_, ?_, ?_, ?_, ?_⟩ <;>
    simp [Tagias.getPackages, Tagias.createPackage, Tagias.setPackageStatus,
          Tagias.getPackage, Tagias.requestResult, Tagias.getResult,
          Tagias.getBalance, htr, apiCall_envelope_error resp st c hst hok hc, hm]

/-- Witness for C10: an envelope with a non-"ok" status and no error field at
all — the TagiasError's code is `undefined` and its message is the default. -/
theorem c10_unknown_code_preserved_witness :
    ((Tagias.mk "key" (mkHeaders "key")).getResult
        (fun _ => .ok ⟨200, .obj [("status", .str "strange")]⟩) "pkg1").2 =
      .error (.tagias ⟨.undefined, "Unknown error code", "TagiasError"⟩) :=
  (c10_unknown_code_preserved ⟨"key", mkHeaders "key"⟩
      ⟨200, .obj [("status", .str "strange")]⟩
      (.str "strange") .undefined
      (fun _ => .ok ⟨200, .obj [("status", .str "strange")]⟩)
      rfl rfl rfl (fun _ => rfl)
      (fun _ _ hh => JsValue.noConfusion hh) "pkg1" "ACTIVE"
      .null .null .null .null .null .null .null .null).2.2.2.2.2.1

/-! ## Claim C8 -/

/-- C8: Every operation issues exactly one HTTP request (its request trace is
a one-element list) to the fixed base URL plus its documented sub-path with
the documented verb, and every request carries the Authorization header with
the credential and the Content-Type application/json header configured at
construction. -/
theorem c8_one_request_documented_route (k : String) (t : Tagias)
    (hc : (Tagias.construct (some k)).2 = .ok t)
    (tr : Transport) (id status : String) (nm ty ds ls cb bu pics lr : JsValue) :
    (t.getPackages tr).1 =
      [⟨"GET", TAGIAS_URL ++ "/packages", .undefined, mkHeaders k⟩] ∧
    (t.createPackage tr nm ty ds ls cb bu pics lr).1 =
      [⟨"POST", TAGIAS_URL ++ "/packages",
        .obj [("name", nm), ("type", ty), ("descr", ds), ("labels", ls),
              ("callback", cb), ("baseurl", bu), ("pictures", pics),
              ("labels_required", lr)], mkHeaders k⟩] ∧
    (t.setPackageStatus tr id status).1 =
      [⟨"PATCH", TAGIAS_URL ++ "/packages/" ++ id,
        .obj [("status", .str status)], mkHeaders k⟩] ∧
    (t.getPackage tr id).1 =
      [⟨"GET", TAGIAS_URL ++ "/packages/" ++ id, .undefined, mkHeaders k⟩] ∧
    (t.requestResult tr id).1 =
      [⟨"POST", TAGIAS_URL ++ "/packages/result/" ++ id, .undefined, mkHeaders k⟩] ∧
    (t.getResult tr id).1 =
      [⟨"GET", TAGIAS_URL ++ "/packages/result/" ++ id, .undefined, mkHeaders k⟩] ∧
    (t.getBalance tr).1 =
      [⟨"GET", TAGIAS_URL ++ "/balance", .undefined, mkHeaders k⟩] ∧
    mkHeaders k = [("Content-Type", "application/json"),
                   ("Authorization", "Api-Key " ++ k)] := by
  have ht : t.instanceHeaders = mkHeaders k := by
    unfold Tagias.construct at hc
    by_cases hk : k = ""
    · simp [hk] at hc
    · simp [hk] at hc
      rw [← hc]
  refine ⟨?_, ?_, ?_, ?_, ?_, ?_, ?_, rfl⟩ <;>
    simp [Tagias.getPackages, Tagias.createPackage, Tagias.setPackageStatus,
          Tagias.getPackage, Tagias.requestResult, Tagias.getResult,
          Tagias.getBalance, ht]

/-- Witness for C8: a concretely constructed client issues exactly the
documented GET /packages request with the configured headers. -/
theorem c8_one_request_documented_route_witness :
    ((Tagias.mk "key" (mkHeaders "key")).getPackages
        (fun _ => .error ⟨false, none, "unused"⟩)).1 =
      [⟨"GET", TAGIAS_URL ++ "/packages", .undefined, mkHeaders "key"⟩] :=
  (c8_one_request_documented_route "key" ⟨"key", mkHeaders "key"⟩
      (by simp [Tagias.construct])
      (fun _ => .error ⟨false, none, "unused"⟩) "id" "ACTIVE"
      .null .null .null .null .null .null .null .null).1

/-! ## Claim C6 -/

/-- Counterexample for C6: calling `createPackage` with the labels-required
flag omitted sends a body in which `labels_required` is present with the
value `null` — it is not absent from the request (`null` is not `undefined`,
and `JSON.stringify` serializes a `null` property). -/
theorem c6_counterexample :
    (((Tagias.mk "key" (mkHeaders "key")).createPackageDefault
        (fun _ => .error ⟨false, none, "unused"⟩)
        (.str "pkg") (.str "BoundingBoxes") (.str "descr") .null .null .null
        (.arr [])).1.map (fun r => r.body.getF "labels_required")) = [some .null] ∧
    some JsValue.null ≠ some JsValue.undefined :=
  ⟨rfl, fun hh => JsValue.noConfusion (Option.some.inj hh)⟩

/-- C6 (amended): createPackage sends a POST body containing exactly the
fields name, type, descr, labels, callback, baseurl, pictures and
labels_required, where the labels-required flag is sent with the explicit
value null (not absent) when the caller omits it, and on success resolves to
an object containing exactly the new package identifier and the picture
count. -/
theorem c6_createPackage_body_and_result (t : Tagias) (tr : Transport)
    (nm ty ds ls cb bu pics : JsValue) (resp : AxiosResponse)
    (bfs : List (String × JsValue))
    (hdata : resp.data = .obj bfs)
    (hok : isOkStatus (JsValue.lookupF bfs "status") = true)
    (htr : ∀ r, tr r = .ok resp) :
    (t.createPackageDefault tr nm ty ds ls cb bu pics).1 =
      [⟨"POST", TAGIAS_URL ++ "/packages",
        .obj [("name", nm), ("type", ty), ("descr", ds), ("labels", ls),
              ("callback", cb), ("baseurl", bu), ("pictures", pics),
              ("labels_required", .null)], t.instanceHeaders⟩] ∧
    (t.createPackageDefault tr nm ty ds ls cb bu pics).2 =
      .ok (.obj [("id", JsValue.lookupF bfs "id"),
                 ("pictures_num", JsValue.lookupF bfs "pictures_num")]) := by
  have hst : resp.data.getF "status" = some (JsValue.lookupF bfs "status") := by
    rw [hdata]; rfl
  have hac : apiCall (.ok resp) = .ok (.obj bfs) := by
    rw [apiCall_envelope_ok resp (JsValue.lookupF bfs "status") hst hok, hdata]
  constructor
  · simp [Tagias.createPackageDefault, Tagias.createPackage]
  · simp [Tagias.createPackageDefault, Tagias.createPackage, htr, hac, JsValue.getF]

/-- Witness for C6's amended theorem at a concrete client, transport and
package description. -/
theorem c6_createPackage_body_and_result_witness :
    ((Tagias.mk "key" (mkHeaders "key")).createPackageDefault
        (fun _ => .ok ⟨200, .obj [("status", .str "ok"), ("id", .str "p77"),
                                  ("pictures_num", .num 3), ("extra", .str "dropped")]⟩)
        (.str "pkg") (.str "BoundingBoxes") (.str "descr") .null .null .null
        (.arr [.str "u1", .str "u2", .str "u3"])).2 =
      .ok (.obj [("id", .str "p77"), ("pictures_num", .num 3)]) :=
  (c6_createPackage_body_and_result ⟨"key", mkHeaders "key"⟩
      (fun _ => .ok ⟨200, .obj [("status", .str "ok"), ("id", .str "p77"),
                                ("pictures_num", .num 3), ("extra", .str "dropped")]⟩)
      (.str "pkg") (.str "BoundingBoxes") (.str "descr") .null .null .null
      (.arr [.str "u1", .str "u2", .str "u3"])
      ⟨200, .obj [("status", .str "ok"), ("id", .str "p77"),
                  ("pictures_num", .num 3), ("extra", .str "dropped")]⟩
      [("status", .str "ok"), ("id", .str "p77"),
       ("pictures_num", .num 3), ("extra", .str "dropped")]
      rfl rfl (fun _ => rfl)).2

/-! ## Claim C5 -/

/-- C5: getBalance strips the envelope's status field from the object it
returns; getPackages omits the envelope entirely (its status field included)
by returning only the packages array; getResult strips the top-level status
field from the object it returns.  A package's own documented `status`
property (ACTIVE, STOPPED, ...) is part of the Package data model and is not
the envelope marker. -/
theorem c5_status_stripped (t : Tagias) (tr : Transport) (id : String)
    (resp : AxiosResponse) (bfs : List (String × JsValue))
    (ps ps' os os' : List JsValue)
    (hdata : resp.data = .obj bfs)
    (hok : isOkStatus (JsValue.lookupF bfs "status") = true)
    (htr : ∀ r, tr r = .ok resp)
    (hps : JsValue.lookupF bfs "packages" = .arr ps)
    (hcps : convItems ps "created" = some ps')
    (hos : JsValue.lookupF bfs "operations" = .arr os)
    (hcos : convItems os "date" = some os') :
    (t.getPackages tr).2 = .ok (.arr ps') ∧
    (∀ rfs, (t.getBalance tr).2 = .ok (.obj rfs) →
      JsValue.lookupF rfs "status" = .undefined) ∧
    (∃ rfs, (t.getBalance tr).2 = .ok (.obj rfs)) ∧
    (∀ rfs, (t.getResult tr id).2 = .ok (.obj rfs) →
      JsValue.lookupF rfs "status" = .undefined) ∧
    (∃ rfs, (t.getResult tr id).2 = .ok (.obj rfs)) := by
  have hst : resp.data.getF "status" = some (JsValue.lookupF bfs "status") := by
    rw [hdata]; rfl
  have hac : apiCall (.ok resp) = .ok (.obj bfs) := by
    rw [apiCall_envelope_ok resp (JsValue.lookupF bfs "status") hst hok, hdata]
  have hbal : (t.getBalance tr).2 =
      .ok (.obj (JsValue.deleteFields
        (JsValue.setFields bfs "operations" (.arr os')) "status")) := by
    simp [Tagias.getBalance, htr, hac, JsValue.getF, hos, hcos,
          JsValue.setF, JsValue.deleteF]
  have hres : (t.getResult tr id).2 =
      .ok (.obj (JsValue.deleteFields
        (if (JsValue.lookupF bfs "finished").truthy
         then JsValue.setFields bfs "finished" (.date (JsValue.lookupF bfs "finished"))
         else bfs) "status")) := by
    by_cases hf : (JsValue.lookupF bfs "finished").truthy <;>
      simp [Tagias.getResult, htr, hac, convDate_obj, JsValue.deleteF, hf]
  refine ⟨?_, ?_, ?_, ?_, ?_⟩
  · simp [Tagias.getPackages, htr, hac, JsValue.getF, hps, hcps]
  · intro rfs h
    rw [hbal] at h
    cases h
    exact lookupF_deleteFields_self _ _
  · exact ⟨_, hbal⟩
  · intro rfs h
    rw [hres] at h
    cases h
    exact lookupF_deleteFields_self _ _
  · exact ⟨_, hres⟩

/-- Witness for C5: a concrete envelope; getPackages returns just the
(converted) packages array, and the object getBalance returns has no status
field. -/
theorem c5_status_stripped_witness :
    ((Tagias.mk "key" (mkHeaders "key")).getPackages
        (fun _ => .ok ⟨200, .obj
          [("status", .str "ok"),
           ("packages", .arr [.obj [("id", .str "p1"), ("status", .str "ACTIVE"),
                                    ("created", .str "2020-01-01")]]),
           ("operations", .arr [.obj [("date", .str "2020-01-02"),
                                      ("amount", .num 5)]]),
           ("finished", .str "2020-03-01"), ("balance", .num 10)]⟩)).2 =
      .ok (.arr [.obj [("id", .str "p1"), ("status", .str "ACTIVE"),
                       ("created", .date (.str "2020-01-01"))]]) ∧
    JsValue.lookupF
      [("packages", .arr [.obj [("id", .str "p1"), ("status", .str "ACTIVE"),
                                ("created", .str "2020-01-01")]]),
       ("operations", .arr [.obj [("date", .date (.str "2020-01-02")),
                                  ("amount", .num 5)]]),
       ("finished", .str "2020-03-01"), ("balance", .num 10)] "status" = .undefined := by
  have h := c5_status_stripped ⟨"key", mkHeaders "key"⟩
    (fun _ => .ok ⟨200, .obj
      [("status", .str "ok"),
       ("packages", .arr [.obj [("id", .str "p1"), ("status", .str "ACTIVE"),
                                ("created", .str "2020-01-01")]]),
       ("operations", .arr [.obj [("date", .str "2020-01-02"),
                                  ("amount", .num 5)]]),
       ("finished", .str "2020-03-01"), ("balance", .num 10)]⟩)
    "pkg1"
    ⟨200, .obj
      [("status", .str "ok"),
       ("packages", .arr [.obj [("id", .str "p1"), ("status", .str "ACTIVE"),
                                ("created", .str "2020-01-01")]]),
       ("operations", .arr [.obj [("date", .str "2020-01-02"),
                                  ("amount", .num 5)]]),
       ("finished", .str "2020-03-01"), ("balance", .num 10)]⟩
    [("status", .str "ok"),
     ("packages", .arr [.obj [("id", .str "p1"), ("status", .str "ACTIVE"),
                              ("created", .str "2020-01-01")]]),
     ("operations", .arr [.obj [("date", .str "2020-01-02"),
                                ("amount", .num 5)]]),
     ("finished", .str "2020-03-01"), ("balance", .num 10)]
    [.obj [("id", .str "p1"), ("status", .str "ACTIVE"),
           ("created", .str "2020-01-01")]]
    [.obj [("id", .str "p1"), ("status", .str "ACTIVE"),
           ("created", .date (.str "2020-01-01"))]]
    [.obj [("date", .str "2020-01-02"), ("amount", .num 5)]]
    [.obj [("date", .date (.str "2020-01-02")), ("amount", .num 5)]]
    rfl rfl (fun _ => rfl) rfl rfl rfl rfl
  exact ⟨h.1, h.2.1 _ rfl⟩

/-! ## Claim C4 -/

/-- The observable value of one date-bearing field after the client's
conditional conversion: the `Date` of the wire value when that value is
truthy, otherwise the wire value unchanged (`undefined` meaning absent). -/
def convSpec (fs : List (String × JsValue)) (f : String) : JsValue :=
  if (JsValue.lookupF fs f).truthy then .date (JsValue.lookupF fs f)
  else JsValue.lookupF fs f

theorem convSpec_congr {fs1 fs2 : List (String × JsValue)} (k : String)
    (h : JsValue.lookupF fs1 k = JsValue.lookupF fs2 k) :
    convSpec fs1 k = convSpec fs2 k := by
  simp [convSpec, h]

theorem convDate_obj_lookup (fs : List (String × JsValue)) (f : String) :
    ∃ fs', convDate (.obj fs) f = some (.obj fs') ∧
      ∀ k, JsValue.lookupF fs' k =
        if k = f then convSpec fs f else JsValue.lookupF fs k := by
  by_cases ht : (JsValue.lookupF fs f).truthy
  · refine ⟨JsValue.setFields fs f (.date (JsValue.lookupF fs f)), ?_, ?_⟩
    · simp [convDate_obj, ht]
    · intro k
      by_cases hk : k = f
      · subst hk; simp [lookupF_setFields_self, convSpec, ht]
      · simp [hk, lookupF_setFields_ne fs f k _ hk]
  · refine ⟨fs, ?_, ?_⟩
    · simp [convDate_obj, ht]
    · intro k
      by_cases hk : k = f
      · subst hk; simp [convSpec, ht]
      · simp [hk]

theorem convDates_obj_lookup (l : List String) (hnd : l.Nodup)
    (fs : List (String × JsValue)) :
    ∃ fs', convDates l (.obj fs) = some (.obj fs') ∧
      ∀ k, JsValue.lookupF fs' k =
        if k ∈ l then convSpec fs k else JsValue.lookupF fs k := by
  induction l generalizing fs with
  | nil => exact ⟨fs, rfl, by simp⟩
  | cons f rest ih =>
      obtain ⟨hf, hrest⟩ := List.nodup_cons.mp hnd
      obtain ⟨fs1, h1, hl1⟩ := convDate_obj_lookup fs f
      obtain ⟨fs2, h2, hl2⟩ := ih hrest fs1
      refine ⟨fs2, ?_, ?_⟩
      · simp [convDates, h1, h2]
      · intro k
        rw [hl2 k]
        by_cases hk : k = f
        · subst hk
          rw [if_neg hf, hl1 k, if_pos rfl, if_pos (List.mem_cons_self k rest)]
        · have hlk : JsValue.lookupF fs1 k = JsValue.lookupF fs k := by
            rw [hl1 k, if_neg hk]
          by_cases hkr : k ∈ rest
          · rw [if_pos hkr, if_pos (List.mem_cons_of_mem f hkr),
                convSpec_congr k hlk]
          · have hnc : k ∉ f :: rest := by simp [hk, hkr]
            rw [if_neg hkr, if_neg hnc, hlk]

theorem convItems_map_obj (fss : List (List (String × JsValue))) (f : String) :
    convItems (fss.map JsValue.obj) f =
      some (fss.map (fun fs => JsValue.obj
        (if (JsValue.lookupF fs f).truthy
         then JsValue.setFields fs f (.date (JsValue.lookupF fs f))
         else fs))) := by
  induction fss with
  | nil => rfl
  | cons fs rest ih => simp [convItems, convDate_obj, ih]

theorem getF_convObj (fs : List (String × JsValue)) (f k : String) :
    (JsValue.obj (if (JsValue.lookupF fs f).truthy
        then JsValue.setFields fs f (.date (JsValue.lookupF fs f))
        else fs)).getF k =
      some (if k = f then convSpec fs f else JsValue.lookupF fs k) := by
  by_cases ht : (JsValue.lookupF fs f).truthy
  · by_cases hk : k = f
    · subst hk; simp [JsValue.getF, ht, lookupF_setFields_self, convSpec]
    · simp [JsValue.getF, ht, hk, lookupF_setFields_ne fs f k _ hk]
  · by_cases hk : k = f
    · subst hk; simp [JsValue.getF, ht, convSpec]
    · simp [JsValue.getF, ht, hk]

theorem getD_map_obj (g : List (String × JsValue) → JsValue)
    (fss : List (List (String × JsValue))) (i : Nat) (hi : i < fss.length) :
    (fss.map g).getD i .undefined = g (fss.getD i []) := by
  induction fss generalizing i with
  | nil => cases hi
  | cons fs rest ih =>
      cases i with
      | zero => rfl
      | succ n => exact ih n (Nat.lt_of_succ_lt_succ hi)

/-- Counterexample for C4: a `created` field present in the wire payload with
the (falsy) empty-string value is NOT converted to a Date — the claim's "each
date-bearing field that is present ... is converted" fails; the code converts
only truthy values. -/
theorem c4_counterexample :
    ((Tagias.mk "key" (mkHeaders "key")).getPackage
        (fun _ => .ok ⟨200, .obj [("status", .str "ok"),
                                  ("package", .obj [("created", .str "")])]⟩)
        "p1").2 = .ok (.obj [("created", .str "")]) ∧
    JsValue.str "" ≠ JsValue.date (.str "") :=
  ⟨rfl, fun hh => JsValue.noConfusion hh⟩

/-- C4 (amended): for every successful response, each date-bearing field
present in the wire payload with a truthy value (in particular any non-empty
date string) is converted to a native Date wrapping the wire value; a field
that is absent remains absent (`undefined`, no sentinel), and a present falsy
value (empty string, null, false, 0) is left unchanged.  `convSpec` is
exactly this observable contract; non-date fields pass through untouched. -/
theorem c4_truthy_dates_converted (t : Tagias) (tr : Transport) (id : String)
    (resp : AxiosResponse) (bfs pfs : List (String × JsValue))
    (fss oss : List (List (String × JsValue)))
    (hdata : resp.data = .obj bfs)
    (hok : isOkStatus (JsValue.lookupF bfs "status") = true)
    (htr : ∀ r, tr r = .ok resp)
    (hpkg : JsValue.lookupF bfs "package" = .obj pfs)
    (hpkgs : JsValue.lookupF bfs "packages" = .arr (fss.map JsValue.obj))
    (hops : JsValue.lookupF bfs "operations" = .arr (oss.map JsValue.obj)) :
    (∀ out, (t.getPackage tr id).2 = .ok out →
      (∀ f ∈ dateFields, out.getF f = some (convSpec pfs f)) ∧
      (∀ k, k ∉ dateFields → out.getF k = some (JsValue.lookupF pfs k))) ∧
    (∀ outs, (t.getPackages tr).2 = .ok (.arr outs) →
      outs.length = fss.length ∧
      ∀ i, i < fss.length →
        (outs.getD i .undefined).getF "created" =
          some (convSpec (fss.getD i []) "created") ∧
        ∀ k, k ≠ "created" →
          (outs.getD i .undefined).getF k =
            some (JsValue.lookupF (fss.getD i []) k)) ∧
    (∀ rfs outs, (t.getBalance tr).2 = .ok (.obj rfs) →
      JsValue.lookupF rfs "operations" = .arr outs →
      outs.length = oss.length ∧
      ∀ i, i < oss.length →
        (outs.getD i .undefined).getF "date" =
          some (convSpec (oss.getD i []) "date") ∧
        ∀ k, k ≠ "date" →
          (outs.getD i .undefined).getF k =
            some (JsValue.lookupF (oss.getD i []) k)) ∧
    (∀ rfs, (t.getResult tr id).2 = .ok (.obj rfs) →
      JsValue.lookupF rfs "finished" = convSpec bfs "finished") := by
  have hst : resp.data.getF "status" = some (JsValue.lookupF bfs "status") := by
    rw [hdata]; rfl
  have hac : apiCall (.ok resp) = .ok (.obj bfs) := by
    rw [apiCall_envelope_ok resp (JsValue.lookupF bfs "status") hst hok, hdata]
  obtain ⟨pfs', hconv, hlk⟩ := convDates_obj_lookup dateFields (by decide) pfs
  have hgp : (t.getPackage tr id).2 = .ok (.obj pfs') := by
    simp [Tagias.getPackage, htr, hac, JsValue.getF, hpkg, hconv]
  have hgps : (t.getPackages tr).2 = .ok (.arr (fss.map (fun fs => JsValue.obj
      (if (JsValue.lookupF fs "created").truthy
       then JsValue.setFields fs "created" (.date (JsValue.lookupF fs "created"))
       else fs)))) := by
    simp [Tagias.getPackages, htr, hac, JsValue.getF, hpkgs, convItems_map_obj]
  have hbal : (t.getBalance tr).2 = .ok (.obj (JsValue.deleteFields
      (JsValue.setFields bfs "operations" (.arr (oss.map (fun fs => JsValue.obj
        (if (JsValue.lookupF fs "date").truthy
         then JsValue.setFields fs "date" (.date (JsValue.lookupF fs "date"))
         else fs))))) "status")) := by
    simp [Tagias.getBalance, htr, hac, JsValue.getF, hops, convItems_map_obj,
          JsValue.setF, JsValue.deleteF]
  have hres : (t.getResult tr id).2 = .ok (.obj (JsValue.deleteFields
      (if (JsValue.lookupF bfs "finished").truthy
       then JsValue.setFields bfs "finished" (.date (JsValue.lookupF bfs "finished"))
       else bfs) "status")) := by
    by_cases hf : (JsValue.lookupF bfs "finished").truthy <;>
      simp [Tagias.getResult, htr, hac, convDate_obj, JsValue.deleteF, hf]
  refine ⟨?_, ?_, ?_, ?_⟩
  · intro out h
    rw [hgp] at h
    cases h
    constructor
    · intro f hfm
      simp [JsValue.getF, hlk f, hfm]
    · intro k hk
      simp [JsValue.getF, hlk k, hk]
  · intro outs h
    rw [hgps] at h
    cases h
    refine ⟨by simp, ?_⟩
    intro i hi
    rw [getD_map_obj _ fss i hi]
    refine ⟨?_, ?_⟩
    · rw [getF_convObj]
      simp
    · intro k hk
      rw [getF_convObj]
      simp [hk]
  · intro rfs outs h hop
    rw [hbal] at h
    cases h
    rw [lookupF_deleteFields_ne _ _ _ (by decide), lookupF_setFields_self] at hop
    cases hop
    refine ⟨by simp, ?_⟩
    intro i hi
    rw [getD_map_obj _ oss i hi]
    refine ⟨?_, ?_⟩
    · rw [getF_convObj]
      simp
    · intro k hk
      rw [getF_convObj]
      simp [hk]
  · intro rfs h
    rw [hres] at h
    cases h
    rw [lookupF_deleteFields_ne _ _ _ (by decide)]
    by_cases hf : (JsValue.lookupF bfs "finished").truthy
    · rw [if_pos hf, lookupF_setFields_self]
      simp [convSpec, hf]
    · rw [if_neg hf]
      simp [convSpec, hf]

/-- Witness for C4's amended theorem: at a concrete response, the present
truthy `created` field comes back as a Date and the absent `started` field
stays absent. -/
theorem c4_truthy_dates_converted_witness :
    (JsValue.obj [("created", JsValue.date (.str "2020-01-01")),
                  ("id", .str "p1")]).getF "created" =
      some (.date (.str "2020-01-01")) ∧
    (JsValue.obj [("created", JsValue.date (.str "2020-01-01")),
                  ("id", .str "p1")]).getF "started" = some JsValue.undefined := by
  have h := c4_truthy_dates_converted ⟨"key", mkHeaders "key"⟩
    (fun _ => .ok ⟨200, .obj [("status", .str "ok"),
        ("package", .obj [("created", .str "2020-01-01"), ("id", .str "p1")]),
        ("packages", .arr []), ("operations", .arr [])]⟩)
    "p1"
    ⟨200, .obj [("status", .str "ok"),
        ("package", .obj [("created", .str "2020-01-01"), ("id", .str "p1")]),
        ("packages", .arr []), ("operations", .arr [])]⟩
    [("status", .str "ok"),
     ("package", .obj [("created", .str "2020-01-01"), ("id", .str "p1")]),
     ("packages", .arr []), ("operations", .arr [])]
    [("created", .str "2020-01-01"), ("id", .str "p1")]
    [] []
    rfl rfl (fun _ => rfl) rfl rfl rfl
  have ha := h.1 (.obj [("created", JsValue.date (.str "2020-01-01")),
                        ("id", .str "p1")]) rfl
  exact ⟨ha.1 "created" (by decide), ha.1 "started" (by decide)⟩
